import Mathlib

/-!
Verification of the junction (node) and sink (destination) models of a
macroscopic highway-traffic network library, shallowly embedded from
`blocks/nodes.py` and `blocks/destinations.py`.

Scalars manipulated by the computation backend are values of a type `α`
(instantiated at `ℚ` for concrete runs); vectors built by the backend's
`vcat` are lists.  Fallible code (Python `assert`, list indexing, attribute
errors) is embedded in `Except String`.  The computation backend and the
graph container are external collaborators of the code under verification:
they are embedded at their interface boundary, as a record of operations
(`Engine`) and a record of adjacency/membership queries (`Network`).
-/

namespace SymMetanet

variable {α : Type}

/-- A backend value that is either a scalar or a vector, mirroring the
scalar-or-vector duck typing of the Python code (e.g. `q_up` is a scalar for
zero or one entering links and a vector for two or more). -/
inductive SVal (α : Type) where
  | scl (x : α)
  | vec (xs : List α)
deriving DecidableEq

/-- The entries of a scalar-or-vector value, in order. -/
def SVal.toList : SVal α → List α
  | .scl x => [x]
  | .vec xs => xs

/-- The backend's `vcat`: order-preserving concatenation of scalars and
vectors into one vector (§6 contract, fixed to be exactly concatenation). -/
def vcat (args : List (SVal α)) : SVal α :=
  .vec (args.map SVal.toList).flatten

/-- External road segment (`Link`), embedded at its interface boundary (§3):
the per-cell density array `states["rho"]`, the per-cell speed array
`states["v"]`, the per-cell flow array produced by the segment's own flow
computation (`Link.get_flow`), the critical density and the turn rate.
Index `0` is the cell nearest the upstream node and the last index is the
cell nearest the downstream node. -/
structure Link (α : Type) where
  rho : List α
  v : List α
  flow : List α
  rho_crit : α
  turnrate : α
deriving DecidableEq

/-- External ramp origin, embedded at its interface boundary: the speed and
flow contributions (`get_speed`, `get_flow`) it feeds into its node. -/
structure Origin (α : Type) where
  speed : α
  flow : α
deriving DecidableEq

/-- The closed polymorphic set of sink variants (§3): the base class
`Destination` (ideal congestion-free sink), `CongestedDestination` with its
disturbance `d`, and the unmetered `OffRamp` with its turn rate. -/
inductive DestinationKind (α : Type) where
  | ideal
  | congested (d : α)
  | offRamp (turnrate : α)
deriving DecidableEq

/-- A destination instance: an identity (distinct objects may carry equal
parameters) together with its variant. -/
structure Destination (α : Type) where
  id : ℕ
  kind : DestinationKind α
deriving DecidableEq

/-- Python's `hasattr(destination, "get_flow")`: of the three variants only
the off-ramp defines `get_flow`. -/
def DestinationKind.has_get_flow : DestinationKind α → Bool
  | .offRamp _ => true
  | _ => false

/-- External graph container, embedded at its interface boundary (§6):
`net.in_links(n)` and `net.out_links(n)` return the ordered collections of
`(node_up, node_down, link)` triples, `net.destinations_by_node` and
`net.origins_by_node` are the membership maps (at most one each), and
`net.destinations` maps a destination (by its `id`) to the node it is
attached to. Nodes are identified by naturals. -/
structure Network (α : Type) where
  in_links : ℕ → List (ℕ × ℕ × Link α)
  out_links : ℕ → List (ℕ × ℕ × Link α)
  destinations_by_node : ℕ → Option (Destination α)
  origins_by_node : ℕ → Option (Origin α)
  destinations : ℕ → ℕ

/-- The computation-backend capability interface (§6), restricted to the
operations the code under verification calls.  `vcat` is fixed above; the
remaining operations are fields so that theorems can quantify over every
backend or hypothesise the §6 contracts. -/
structure Engine (α : Type) where
  get_congestion_free_downstream_density : α → α → α
  get_congested_downstream_density : α → α → α → α
  get_downstream_density : SVal α → α
  get_upstream_speed : SVal α → SVal α → α
  get_upstream_flow : SVal α → α → SVal α → Option α → Option α → α

/-- Lift an optional value into `Except`, failing with `msg` when absent;
used to embed Python list indexing (`IndexError`). -/
def orFail (o : Option α) (msg : String) : Except String α :=
  match o with
  | some x => Except.ok x
  | none => Except.error msg

/-- Effectful map over a list in `Except`, evaluated front to back exactly
like the Python `for` loops that accumulate per-link quantities. -/
def mapE {β γ : Type} (f : β → Except String γ) : List β → Except String (List γ)
  | [] => Except.ok []
  | a :: l => do
      let x ← f a
      let xs ← mapE f l
      Except.ok (x :: xs)

/-- Embeds `Destination._get_entering_link`: fetch the unique link entering the node
this destination is attached to, asserting there is exactly one. -/
def Destination.get_entering_link (self : Destination α) (net : Network α) :
    Except String (Link α) :=
  match net.in_links (net.destinations self.id) with
  | [t] => Except.ok t.2.2
  | _ => Except.error "Internal error. Only one link can enter a destination."

/-- Embeds `get_density` of the sink variants.  The base class computes the
congestion-free downstream density from the entering link's last-cell
density and critical density; `CongestedDestination` overrides it with the
congested formula fed with its disturbance `d`; `OffRamp` does not override
it and therefore inherits the base class behaviour. -/
def Destination.get_density (self : Destination α) (net : Network α)
    (engine : Engine α) : Except String α := do
  let link_up ← self.get_entering_link net
  let ρ_last ← orFail link_up.rho.getLast? "list index out of range"
  match self.kind with
  | .congested d =>
      Except.ok (engine.get_congested_downstream_density ρ_last d link_up.rho_crit)
  | _ =>
      Except.ok (engine.get_congestion_free_downstream_density ρ_last link_up.rho_crit)

/-- Embeds `OffRamp.get_flow`: the flow exiting via the off-ramp.  Only the off-ramp
variant has this method (other variants raise an attribute error).  Omitted
`q_up` is derived from the entering link's last-cell flow, omitted `q_orig`
from the origin attached to the same node (left absent if there is none),
and the betas are the turn rates of the exiting links (or the given
`betas_down`) with the off-ramp's own turn rate appended. -/
def OffRamp.get_flow (self : Destination α) (net : Network α) (engine : Engine α)
    (q_up : Option (SVal α)) (q_orig : Option α) (betas_down : Option (SVal α)) :
    Except String α := do
  let turnrate ← match self.kind with
    | .offRamp r => Except.ok r
    | _ => Except.error "AttributeError: object has no attribute get_flow"
  let node := net.destinations self.id
  let q_up ← match q_up with
    | some q => Except.ok q
    | none => do
        let link_up ← self.get_entering_link net
        let q ← orFail link_up.flow.getLast? "list index out of range"
        Except.ok (SVal.scl q)
  let q_orig : Option α :=
    match q_orig, net.origins_by_node node with
    | none, some origin => some origin.flow
    | _, _ => q_orig
  let betas : SVal α :=
    match betas_down with
    | none => vcat (((net.out_links node).map (fun t => SVal.scl t.2.2.turnrate))
        ++ [SVal.scl turnrate])
    | some bd => vcat [bd, SVal.scl turnrate]
  Except.ok (engine.get_upstream_flow q_up turnrate betas q_orig none)

/-- Embeds `Node.get_downstream_density`: the virtual downstream density of a node.
The density of the attached destination, if any, is computed first; with no
exiting link the destination's density is mandatory and returned directly;
with exactly one exiting link and no destination density that link's
first-cell density is returned unchanged; otherwise the first-cell densities
of the exiting links (with the destination density appended, if present) are
combined by the backend's diverge-merge formula. -/
def Node.get_downstream_density [DecidableEq α] (self : ℕ) (net : Network α)
    (engine : Engine α) : Except String α := do
  let density_dest : Option α ←
    match net.destinations_by_node self with
    | some dest => do
        let ρ ← dest.get_density net engine
        Except.ok (some ρ)
    | none => Except.ok none
  let links_down := net.out_links self
  let n_down := links_down.length
  if n_down = 0 then
    match density_dest with
    | some ρ => Except.ok ρ
    | none => Except.error "No exiting links or destination!"
  else if n_down = 1 ∧ density_dest = none then do
    let t ← orFail links_down.head? "list index out of range"
    orFail t.2.2.rho.head? "list index out of range"
  else do
    let rho_firsts ← mapE (fun t => orFail t.2.2.rho.head? "list index out of range")
      links_down
    let rho_firsts :=
      match density_dest with
      | some ρ => rho_firsts ++ [ρ]
      | none => rho_firsts
    Except.ok (engine.get_downstream_density (vcat (rho_firsts.map SVal.scl)))

/-- First half of `Node.get_upstream_speed_and_flow` (gathering of entering
links and origin, and the speed computation): returns the upstream speed
`v`, the upstream flow `q_up` (scalar for zero or one entering links, vector
otherwise) and the remaining origin flow `q_o` (zeroed when there is no
origin, and also when the origin's flow was already consumed as the upstream
flow of a node with no entering links). -/
def Node.upstream_v_q [Zero α] [DecidableEq α] (self : ℕ) (net : Network α)
    (engine : Engine α) : Except String (α × SVal α × α) := do
  let links_up := net.in_links self
  let origin := net.origins_by_node self
  if links_up = [] ∧ origin = none then
    Except.error "No entering links or origin!"
  else do
    let vq ← mapE (fun t => do
        let v ← orFail t.2.2.v.getLast? "list index out of range"
        let q ← orFail t.2.2.flow.getLast? "list index out of range"
        Except.ok (v, q)) links_up
    let v_up := vq.map Prod.fst
    let q_up := vq.map Prod.snd
    let vo_qo : α × α :=
      match origin with
      | some o => (o.speed, o.flow)
      | none => (0, 0)
    let v_o := vo_qo.1
    let q_o := vo_qo.2
    let n_up := links_up.length
    if n_up = 0 then
      Except.ok (v_o, SVal.scl q_o, 0)
    else if n_up = 1 then do
      let v ← orFail v_up.head? "list index out of range"
      let q ← orFail q_up.head? "list index out of range"
      Except.ok (v, SVal.scl q, q_o)
    else
      let q_upv := vcat (q_up.map SVal.scl)
      let v_upv := vcat (v_up.map SVal.scl)
      Except.ok (engine.get_upstream_speed q_upv v_upv, q_upv, q_o)

/-- Embeds `Node.get_upstream_speed_and_flow`: the virtual upstream speed and flow
of the node for the exiting `link` querying it.  After the upstream
gathering, the queried link is asserted to be among the exiting links, the
betas vector collects the exiting links' turn rates, the attached
destination (if any) is asserted to be an off-ramp and its flow demand is
computed, and the backend's upstream-flow formula is called. -/
def Node.get_upstream_speed_and_flow [Zero α] [DecidableEq α] (self : ℕ)
    (net : Network α) (link : Link α) (engine : Engine α) :
    Except String (α × α) := do
  let (v, q_up, q_o) ← Node.upstream_v_q self net engine
  let links_down := net.out_links self
  if links_down.any (fun t => t.2.2 == link) then do
    let betas := vcat (links_down.map (fun t => SVal.scl t.2.2.turnrate))
    let q_d : Option α ←
      match net.destinations_by_node self with
      | some destination =>
          if destination.kind.has_get_flow then do
            let q ← OffRamp.get_flow destination net engine (some q_up) (some q_o)
              (some betas)
            Except.ok (some q)
          else Except.error "Destination is not an off-ramp!"
      | none => Except.ok (none : Option α)
    Except.ok (v, engine.get_upstream_flow q_up link.turnrate betas (some q_o) q_d)
  else
    Except.error "Link not contained in entering links!"

/-! ## The spec-modelled computation backend

The backend itself (the engines package) is not part of the sources under
verification, only its capability interface is; the following operations are
modelled from the spec's §6 contract table and instantiated at `ℚ`. -/

/-- Sum of the entries of a scalar-or-vector rational value, realising the
"total inflow (sum of incoming-segment flows)" wording of §4.2. -/
def SVal.total (x : SVal ℚ) : ℚ := x.toList.sum

/-- Modelled from the spec: the backend operation
`congestion_free_downstream_density` lives in the engines package, outside
the sources under verification; §6 fixes its contract as the elementwise
minimum of the last-cell density and the critical density. -/
def congestion_free_downstream_density_spec (ρ_last ρ_crit : ℚ) : ℚ :=
  min ρ_last ρ_crit

/-- Modelled from the spec: the backend operation
`congested_downstream_density` lives in the engines package, outside the
sources under verification; §6 fixes its contract as
`max (min ρ_last ρ_crit) d`. -/
def congested_downstream_density_spec (ρ_last d ρ_crit : ℚ) : ℚ :=
  max (min ρ_last ρ_crit) d

/-- Modelled from the spec: the backend diverge-merge `downstream_density`
lives in the engines package, outside the sources under verification; §6
only asks for one representative virtual density, and §4.2's reading that
the most congested branch dominates is realised as the maximum of the
candidate densities. -/
def downstream_density_spec (x : SVal ℚ) : ℚ := x.toList.foldr max 0

/-- Modelled from the spec: the backend operation `upstream_speed` lives in
the engines package, outside the sources under verification; §6 fixes its
contract as a flow-weighted average speed. -/
def upstream_speed_spec (q v : SVal ℚ) : ℚ :=
  (List.zipWith (fun a b => a * b) q.toList v.toList).sum / q.total

/-- Modelled from the spec: the backend operation `upstream_flow` lives in
the engines package, outside the sources under verification; §6 fixes its
contract as the turn-rate-proportional share of the total inflow minus the
sink demand, a null source flow counting as zero (§4.1: "zero if none") and
a null sink demand as no sink term. -/
def upstream_flow_spec (q_up : SVal ℚ) (beta : ℚ) (betas : SVal ℚ)
    (q_orig : Option ℚ) (q_dest : Option ℚ) : ℚ :=
  (q_up.total + q_orig.getD 0 - q_dest.getD 0) * beta / betas.total

/-- A concrete rational backend made of the spec-modelled operations; it
satisfies every §6 contract. -/
def specEngine : Engine ℚ where
  get_congestion_free_downstream_density := congestion_free_downstream_density_spec
  get_congested_downstream_density := congested_downstream_density_spec
  get_downstream_density := downstream_density_spec
  get_upstream_speed := upstream_speed_spec
  get_upstream_flow := upstream_flow_spec

/-! ## Concrete example data for witnesses and counterexamples -/

/-- Entering link used by the example networks: last-cell density 30,
last-cell speed 100, last-cell flow 1800, critical density 25. -/
def luEx : Link ℚ := ⟨[20, 30], [100], [1800], 25, 1⟩

/-- Exiting link used by the example networks: first-cell density 10,
turn rate 7. -/
def l1Ex : Link ℚ := ⟨[10, 12], [95], [1500], 33, 7⟩

/-- Entering link with last-cell density 10 and critical density 25. -/
def luE2 : Link ℚ := ⟨[5, 10], [100], [1800], 25, 1⟩

/-- An off-ramp destination with turn rate 3. -/
def dstRamp : Destination ℚ := ⟨0, .offRamp 3⟩

/-- An ideal (free-flow) destination. -/
def dstIdeal : Destination ℚ := ⟨1, .ideal⟩

/-- Network with one entering link, one exiting link and an off-ramp
attached to node 0. -/
def netA : Network ℚ where
  in_links := fun n => if n = 0 then [(9, 0, luEx)] else []
  out_links := fun n => if n = 0 then [(0, 1, l1Ex)] else []
  destinations_by_node := fun n => if n = 0 then some dstRamp else none
  origins_by_node := fun _ => none
  destinations := fun _ => 0

/-- Network with one entering link, one exiting link and an ideal (not
flow-demanding) destination attached to node 0. -/
def netB : Network ℚ where
  in_links := fun n => if n = 0 then [(9, 0, luEx)] else []
  out_links := fun n => if n = 0 then [(0, 1, l1Ex)] else []
  destinations_by_node := fun n => if n = 0 then some dstIdeal else none
  origins_by_node := fun _ => none
  destinations := fun _ => 0

/-- Entering link for the conservation example: last-cell flow 100. -/
def luD : Link ℚ := ⟨[22, 24], [101, 102], [99, 100], 25, 1⟩

/-- Mainline exiting link for the conservation example: turn rate 7. -/
def mainD : Link ℚ := ⟨[14, 15], [96], [1400], 30, 7⟩

/-- Off-ramp with turn rate 3 for the conservation example. -/
def dstRampD : Destination ℚ := ⟨3, .offRamp 3⟩

/-- Network for the conservation example: upstream flow 100, turn rates
mainline 7 and ramp 3, no origin. -/
def netD : Network ℚ where
  in_links := fun n => if n = 0 then [(9, 0, luD)] else []
  out_links := fun n => if n = 0 then [(0, 1, mainD)] else []
  destinations_by_node := fun n => if n = 0 then some dstRampD else none
  origins_by_node := fun _ => none
  destinations := fun _ => 0

/-- Ideal destination attached to node 0 of `netE`. -/
def dstE1 : Destination ℚ := ⟨0, .ideal⟩

/-- Ideal destination attached to node 1 of `netE` and `netF`. -/
def dstE2 : Destination ℚ := ⟨1, .ideal⟩

/-- Network with two terminal ideal destinations: the one at node 0 sees a
last-cell density of 30, the one at node 1 a last-cell density of 10, both
with critical density 25. -/
def netE : Network ℚ where
  in_links := fun n =>
    if n = 0 then [(9, 0, luEx)] else if n = 1 then [(8, 1, luE2)] else []
  out_links := fun _ => []
  destinations_by_node := fun n =>
    if n = 0 then some dstE1 else if n = 1 then some dstE2 else none
  origins_by_node := fun _ => none
  destinations := fun i => i

/-- Congestion-scenario destination with disturbance 18. -/
def dstF1 : Destination ℚ := ⟨0, .congested 18⟩

/-- Network where a congested destination (node 0) and an ideal destination
(node 1) read the same entering link (last-cell density 10, critical 25). -/
def netF : Network ℚ where
  in_links := fun n =>
    if n = 0 then [(9, 0, luE2)] else if n = 1 then [(8, 1, luE2)] else []
  out_links := fun _ => []
  destinations_by_node := fun n =>
    if n = 0 then some dstF1 else if n = 1 then some dstE2 else none
  origins_by_node := fun _ => none
  destinations := fun i => i

/-- Network with one entering link, one exiting link, no destination and no
origin at node 0. -/
def netG : Network ℚ where
  in_links := fun n => if n = 0 then [(9, 0, luEx)] else []
  out_links := fun n => if n = 0 then [(0, 1, l1Ex)] else []
  destinations_by_node := fun _ => none
  origins_by_node := fun _ => none
  destinations := fun _ => 0

/-- Off-ramp destination attached (in `netH`) to a node with no entering
link. -/
def dstH : Destination ℚ := ⟨7, .offRamp 2⟩

/-- Malformed network: the destination's node (node 3) has no entering
link. -/
def netH : Network ℚ where
  in_links := fun _ => []
  out_links := fun _ => []
  destinations_by_node := fun _ => none
  origins_by_node := fun _ => none
  destinations := fun _ => 3

/-- Variant of `netG` with an explicit zero-speed, zero-flow origin attached to
node 0. -/
def netG0 : Network ℚ where
  in_links := netG.in_links
  out_links := netG.out_links
  destinations_by_node := netG.destinations_by_node
  origins_by_node := fun m => if m = 0 then some ⟨0, 0⟩ else none
  destinations := netG.destinations

/-! ## Reduction helpers -/

/-- Bind on `Except` after a success reduces to the continuation. -/
@[simp] theorem ok_bind {β γ : Type} (a : β) (f : β → Except String γ) :
    (Except.ok a >>= f : Except String γ) = f a := rfl

/-- Bind on `Except` after a failure propagates the failure. -/
@[simp] theorem error_bind {β γ : Type} (m : String) (f : β → Except String γ) :
    (Except.error m >>= f : Except String γ) = Except.error m := rfl

/-- The `pure` of the `Except` monad is `Except.ok`. -/
@[simp] theorem pure_eq_ok {β : Type} (a : β) :
    (pure a : Except String β) = Except.ok a := rfl

@[simp] theorem orFail_some (x : α) (m : String) :
    orFail (some x) m = Except.ok x := rfl

@[simp] theorem orFail_none (m : String) :
    orFail (none : Option α) m = Except.error m := rfl

@[simp] theorem mapE_nil {β γ : Type} (f : β → Except String γ) :
    mapE f [] = Except.ok [] := rfl

@[simp] theorem mapE_cons {β γ : Type} (f : β → Except String γ) (a : β) (l : List β) :
    mapE f (a :: l) = (do
      let x ← f a
      let xs ← mapE f l
      Except.ok (x :: xs)) := rfl

/-- Applying `vcat` to a list of scalars gives the vector of those scalars. -/
theorem vcat_scl_map {β : Type} (f : β → α) (l : List β) :
    vcat (l.map (fun x => SVal.scl (f x))) = SVal.vec (l.map f) := by
  unfold vcat
  congr 1
  induction l with
  | nil => rfl
  | cons a l ih => simpa [SVal.toList] using ih

/-- Applying `vcat` to the exiting links' turn rates (as scalars) gives the vector of
those turn rates. -/
theorem vcat_scl_turnrates (l : List (ℕ × ℕ × Link α)) :
    vcat (l.map (fun t => SVal.scl t.2.2.turnrate)) =
      SVal.vec (l.map (fun t => t.2.2.turnrate)) :=
  vcat_scl_map (fun t => t.2.2.turnrate) l

/-- Applying `vcat` to the exiting links' turn rates with one more scalar appended
is the vector of those turn rates with that scalar appended. -/
theorem vcat_scl_turnrates_append (l : List (ℕ × ℕ × Link α)) (r : α) :
    vcat ((l.map (fun t => SVal.scl t.2.2.turnrate)) ++ [SVal.scl r]) =
      SVal.vec ((l.map (fun t => t.2.2.turnrate)) ++ [r]) := by
  unfold vcat
  congr 1
  induction l with
  | nil => rfl
  | cons a l ih => simpa [SVal.toList] using ih

/-- Appending one scalar to an already-built vector by `vcat` appends its
entry. -/
theorem vcat_vec_scl (xs : List α) (r : α) :
    vcat [SVal.vec xs, SVal.scl r] = SVal.vec (xs ++ [r]) := by
  simp [vcat, SVal.toList]

/-- Calling `OffRamp.get_flow` with all three optional arguments supplied consults
nothing of the network, so its result does not depend on it. -/
theorem get_flow_all_given_net_agnostic (dest : Destination α)
    (n1 n2 : Network α) (engine : Engine α) (q : SVal α) (qo : α)
    (bd : SVal α) :
    OffRamp.get_flow dest n1 engine (some q) (some qo) (some bd) =
      OffRamp.get_flow dest n2 engine (some q) (some qo) (some bd) := by
  rcases dest with ⟨i, k⟩
  cases k <;> rfl

/-- Sum of the turn-rate-proportional shares over a list of exiting
links. -/
theorem sum_map_share (c B : ℚ) (l : List (ℕ × ℕ × Link ℚ)) :
    (l.map (fun t => c * t.2.2.turnrate / B)).sum =
      c * (l.map (fun t => t.2.2.turnrate)).sum / B := by
  induction l with
  | nil => simp
  | cons a as ih =>
      simp only [List.map_cons, List.sum_cons, ih]
      ring

/-! ## Claims -/

/-- C5: under the §6 contract for `congestion_free_downstream_density`
(elementwise minimum), the free-flow sink's `get_density` with exactly one
upstream segment and nonnegative densities returns the minimum of the
segment's last-cell density and its critical density. -/
theorem C5_freeflow_density_min (net : Network ℚ) (dest : Destination ℚ)
    (engine : Engine ℚ) (a b : ℕ) (lu : Link ℚ) (ρL : ℚ)
    (hkind : dest.kind = .ideal)
    (hin : net.in_links (net.destinations dest.id) = [(a, b, lu)])
    (hρ : lu.rho.getLast? = some ρL)
    (hnn : 0 ≤ ρL) (hnnc : 0 ≤ lu.rho_crit)
    (he : engine.get_congestion_free_downstream_density =
      congestion_free_downstream_density_spec) :
    dest.get_density net engine = Except.ok (min ρL lu.rho_crit) := by
  simp [Destination.get_density, Destination.get_entering_link, hin, hρ, hkind, he,
    congestion_free_downstream_density_spec]

/-- Witness for C5 at the spec's two examples: last-cell density 30 with
critical density 25 gives 25, and last-cell density 10 with critical density
25 gives 10. -/
theorem C5_witness :
    dstE1.get_density netE specEngine = Except.ok 25 ∧
    dstE2.get_density netE specEngine = Except.ok 10 :=
  ⟨C5_freeflow_density_min netE dstE1 specEngine 9 0 luEx 30 rfl rfl rfl
      (by decide) (by decide) rfl,
   C5_freeflow_density_min netE dstE2 specEngine 8 1 luE2 10 rfl rfl rfl
      (by decide) (by decide) rfl⟩

/-- C6: under the §6 contracts, the congestion-scenario sink's `get_density`
with exactly one upstream segment returns `max (min ρ_last ρ_crit) d`, and
for a nonnegative disturbance this is at least the free-flow sink's result
on the same upstream segment. -/
theorem C6_congested_density_dominates (net : Network ℚ) (d1 d2 : Destination ℚ)
    (engine : Engine ℚ) (a1 b1 a2 b2 : ℕ) (lu : Link ℚ) (ρL dval : ℚ)
    (hk1 : d1.kind = .congested dval)
    (hk2 : d2.kind = .ideal)
    (hin1 : net.in_links (net.destinations d1.id) = [(a1, b1, lu)])
    (hin2 : net.in_links (net.destinations d2.id) = [(a2, b2, lu)])
    (hρ : lu.rho.getLast? = some ρL)
    (hd : 0 ≤ dval)
    (hec : engine.get_congested_downstream_density =
      congested_downstream_density_spec)
    (hef : engine.get_congestion_free_downstream_density =
      congestion_free_downstream_density_spec) :
    d1.get_density net engine = Except.ok (max (min ρL lu.rho_crit) dval) ∧
    d2.get_density net engine = Except.ok (min ρL lu.rho_crit) ∧
    min ρL lu.rho_crit ≤ max (min ρL lu.rho_crit) dval := by
  refine ⟨?_, ?_, le_max_left _ _⟩
  · simp [Destination.get_density, Destination.get_entering_link, hin1, hρ, hk1, hec,
      congested_downstream_density_spec]
  · simp [Destination.get_density, Destination.get_entering_link, hin2, hρ, hk2, hef,
      congestion_free_downstream_density_spec]

/-- Witness for C6 at the spec's example: last-cell density 10, critical
density 25, disturbance 18 — the congested sink reports 18, the free-flow
sink reports 10, and 10 is at most 18. -/
theorem C6_witness :
    dstF1.get_density netF specEngine = Except.ok 18 ∧
    dstE2.get_density netF specEngine = Except.ok 10 ∧
    (10 : ℚ) ≤ 18 :=
  C6_congested_density_dominates netF dstF1 dstE2 specEngine 9 0 8 1 luE2 10 18
    rfl rfl rfl rfl rfl (by decide) rfl rfl

/-- C7: a junction with exactly one outgoing segment and no sink density
contribution returns that segment's first-cell density unchanged, for every
backend — hence without invoking the backend's diverge-merge formula. -/
theorem C7_single_out_passthrough [DecidableEq α] (net : Network α) (node : ℕ)
    (engine : Engine α) (a b : ℕ) (l : Link α) (ρ0 : α)
    (hdest : net.destinations_by_node node = none)
    (hout : net.out_links node = [(a, b, l)])
    (hρ : l.rho.head? = some ρ0) :
    Node.get_downstream_density node net engine = Except.ok ρ0 := by
  simp [Node.get_downstream_density, hdest, hout, hρ]

/-- Witness for C7: node 0 of `netG` has one exiting link with first-cell
density 10 and no destination, and reports exactly that density. -/
theorem C7_witness :
    Node.get_downstream_density 0 netG specEngine = Except.ok 10 :=
  C7_single_out_passthrough netG 0 specEngine 0 1 l1Ex 10 rfl rfl rfl

/-- C8: every operation that must locate a sink's unique upstream segment —
`get_density` of every variant, and the off-ramp `get_flow` with `q_up`
omitted — fails with the structural error whenever the number of entering
links of the destination's node is not exactly one. -/
theorem C8_structural_entering_link_error [DecidableEq α] (net : Network α)
    (dest : Destination α) (engine : Engine α) (q_orig : Option α)
    (betas_down : Option (SVal α))
    (hn : (net.in_links (net.destinations dest.id)).length ≠ 1) :
    dest.get_density net engine =
      Except.error "Internal error. Only one link can enter a destination." ∧
    (∀ r, dest.kind = .offRamp r →
      OffRamp.get_flow dest net engine none q_orig betas_down =
        Except.error "Internal error. Only one link can enter a destination.") := by
  have hlink : dest.get_entering_link net =
      Except.error "Internal error. Only one link can enter a destination." := by
    rcases h : net.in_links (net.destinations dest.id) with _ | ⟨t, _ | ⟨t2, ts⟩⟩
    · simp [Destination.get_entering_link, h]
    · exact absurd (by simp [h]) hn
    · simp [Destination.get_entering_link, h]
  refine ⟨?_, ?_⟩
  · simp [Destination.get_density, hlink]
  · intro r hr
    simp [OffRamp.get_flow, hr, hlink]

/-- Witness for C8: in `netH` the destination's node has zero entering
links, so both `get_density` and `get_flow` (with `q_up` omitted) fail with
the structural error. -/
theorem C8_witness :
    dstH.get_density netH specEngine =
      Except.error "Internal error. Only one link can enter a destination." ∧
    OffRamp.get_flow dstH netH specEngine none none none =
      Except.error "Internal error. Only one link can enter a destination." := by
  have h := C8_structural_entering_link_error netH dstH specEngine none none
    (by decide)
  exact ⟨h.1, h.2 2 rfl⟩

/-- C1 counterexample: in `netA` the off-ramp's density contribution is not
absent — its `get_density` returns the congestion-free density 25 — and the
node with exactly one ordinary exiting link of first-cell density 10 does
not return that density alone. -/
theorem C1_counterexample :
    dstRamp.get_density netA specEngine = Except.ok 25 ∧
    l1Ex.rho.head? = some 10 ∧
    Node.get_downstream_density 0 netA specEngine ≠ Except.ok 10 := by
  refine ⟨rfl, rfl, fun h => ?_⟩
  have h25 : Node.get_downstream_density 0 netA specEngine = Except.ok 25 := rfl
  rw [h25] at h
  exact absurd (Except.ok.inj h) (by norm_num)

/-- C1 (amended): a junction whose attached sink is an off-ramp computes the
sink's density contribution not as absent but as the congestion-free density
of the entering link (the off-ramp inherits the base sink's `get_density`),
so a junction with exactly one ordinary outgoing segment and an off-ramp
sink merges that segment's first-cell density with the off-ramp's density
through the backend's diverge-merge formula. -/
theorem C1_offramp_density_merged [DecidableEq α] (net : Network α)
    (node : ℕ) (engine : Engine α) (dest : Destination α) (r : α)
    (a b c d : ℕ) (l lu : Link α) (ρ0 ρL : α)
    (hdest : net.destinations_by_node node = some dest)
    (hkind : dest.kind = .offRamp r)
    (hin : net.in_links (net.destinations dest.id) = [(c, d, lu)])
    (hρL : lu.rho.getLast? = some ρL)
    (hout : net.out_links node = [(a, b, l)])
    (hρ0 : l.rho.head? = some ρ0) :
    Node.get_downstream_density node net engine =
      Except.ok (engine.get_downstream_density (SVal.vec [ρ0,
        engine.get_congestion_free_downstream_density ρL lu.rho_crit])) := by
  simp [Node.get_downstream_density, Destination.get_density,
    Destination.get_entering_link, hdest, hkind, hin, hρL, hout, hρ0, vcat,
    SVal.toList]

/-- Witness for C1 (amended) at `netA`: the merge of the exiting link's
first-cell density 10 with the off-ramp's congestion-free density 25 gives
25 for the spec-modelled backend. -/
theorem C1_witness :
    Node.get_downstream_density 0 netA specEngine = Except.ok 25 :=
  C1_offramp_density_merged netA 0 specEngine dstRamp 3 0 1 9 0 l1Ex
    luEx 10 30 rfl rfl rfl rfl rfl rfl

/-- C2 counterexample: node 0 of `netB` has one entering link, one exiting
link and an attached ideal (not flow-demanding) sink; querying the upstream
speed and flow does not succeed but fails with the capability error. -/
theorem C2_counterexample :
    Node.get_upstream_speed_and_flow 0 netB l1Ex specEngine =
      Except.error "Destination is not an off-ramp!" := rfl

/-- C2 (amended): for a junction with an attached sink that is not
flow-demanding, `get_upstream_speed_and_flow` does not succeed: whenever the
upstream gathering succeeds and the queried link is among the exiting links,
it fails with the capability error "Destination is not an off-ramp!" (the
sink-demand argument is null only when no sink is attached at all). -/
theorem C2_nonflow_sink_error [Zero α] [DecidableEq α] (net : Network α)
    (node : ℕ) (link : Link α) (engine : Engine α) (dest : Destination α)
    (u : α × SVal α × α)
    (hdest : net.destinations_by_node node = some dest)
    (hnf : dest.kind.has_get_flow = false)
    (hup : Node.upstream_v_q node net engine = Except.ok u)
    (hmem : ∃ t ∈ net.out_links node, t.2.2 = link) :
    Node.get_upstream_speed_and_flow node net link engine =
      Except.error "Destination is not an off-ramp!" := by
  obtain ⟨v, qS, qo⟩ := u
  have hany : (net.out_links node).any (fun t => t.2.2 == link) = true := by
    rcases hmem with ⟨t, ht, hteq⟩
    exact List.any_eq_true.mpr ⟨t, ht, by simp [hteq]⟩
  simp [Node.get_upstream_speed_and_flow, hup, hany, hdest, hnf]

/-- Witness for C2 (amended) at `netB`. -/
theorem C2_witness :
    Node.get_upstream_speed_and_flow 0 netB l1Ex specEngine =
      Except.error "Destination is not an off-ramp!" :=
  C2_nonflow_sink_error netB 0 l1Ex specEngine dstIdeal (100, .scl 1800, 0)
    rfl rfl rfl ⟨(0, 1, l1Ex), by decide, rfl⟩

/-- C3: an off-ramp `get_flow` call that omits `q_orig` at a junction with
no attached origin computes the same flow as one passing `q_orig` explicitly
as zero, for the spec-modelled backend (whose `upstream_flow` counts a null
source flow as zero). -/
theorem C3_omitted_qorig_is_zero (net : Network ℚ) (dest : Destination ℚ)
    (r : ℚ) (q_up : Option (SVal ℚ)) (betas_down : Option (SVal ℚ))
    (hkind : dest.kind = .offRamp r)
    (horig : net.origins_by_node (net.destinations dest.id) = none) :
    OffRamp.get_flow dest net specEngine q_up none betas_down =
      OffRamp.get_flow dest net specEngine q_up (some 0) betas_down := by
  cases q_up with
  | some q =>
      simp [OffRamp.get_flow, hkind, horig, specEngine, upstream_flow_spec]
  | none =>
      cases h : dest.get_entering_link net with
      | error e => simp [OffRamp.get_flow, hkind, horig, h]
      | ok lu =>
          cases hq : lu.flow.getLast? with
          | none => simp [OffRamp.get_flow, hkind, horig, h, hq]
          | some q =>
              simp [OffRamp.get_flow, hkind, horig, h, hq, specEngine,
                upstream_flow_spec]

/-- Witness for C3 at `netA` (off-ramp at a node with no origin): omitting
`q_orig` and passing zero give the same flow. -/
theorem C3_witness :
    OffRamp.get_flow dstRamp netA specEngine (some (SVal.scl 100)) none
      (some (SVal.vec [7])) =
    OffRamp.get_flow dstRamp netA specEngine (some (SVal.scl 100)) (some 0)
      (some (SVal.vec [7])) :=
  C3_omitted_qorig_is_zero netA dstRamp 3 (some (SVal.scl 100))
    (some (SVal.vec [7])) rfl rfl

/-- C9: at a junction with no attached origin but at least one entering
link the origin's speed and flow are taken to be the number zero: for every
backend, the query returns exactly what it returns on a network identical at
that junction except that an explicit zero-speed, zero-flow origin is
attached. -/
theorem C9_no_origin_is_zero_source [Zero α] [DecidableEq α]
    (net net2 : Network α) (node : ℕ) (link : Link α) (engine : Engine α)
    (horig : net.origins_by_node node = none)
    (horig2 : net2.origins_by_node node = some ⟨0, 0⟩)
    (hin : net2.in_links node = net.in_links node)
    (hout : net2.out_links node = net.out_links node)
    (hdest : net2.destinations_by_node node = net.destinations_by_node node)
    (hne : net.in_links node ≠ []) :
    Node.get_upstream_speed_and_flow node net link engine =
      Node.get_upstream_speed_and_flow node net2 link engine := by
  have hup : Node.upstream_v_q node net2 engine =
      Node.upstream_v_q node net engine := by
    unfold Node.upstream_v_q
    rw [hin, horig, horig2]
    simp [hne]
  unfold Node.get_upstream_speed_and_flow
  rw [hup, hout, hdest]
  cases h : Node.upstream_v_q node net engine with
  | error e => rfl
  | ok u =>
      obtain ⟨v, qS, qo⟩ := u
      simp only [ok_bind]
      cases hd : net.destinations_by_node node with
      | none => rfl
      | some dest =>
          cases hfl : dest.kind.has_get_flow with
          | false => simp [hfl]
          | true =>
              simp only [hfl]
              rw [get_flow_all_given_net_agnostic dest net net2 engine qS qo]

/-- Witness for C9: on `netG` (no origin, one entering link) node 0 answers
the same as on `netG0`, where a zero origin is attached to node 0. -/
theorem C9_witness :
    Node.get_upstream_speed_and_flow 0 netG l1Ex specEngine =
      Node.get_upstream_speed_and_flow 0 netG0 l1Ex specEngine :=
  C9_no_origin_is_zero_source netG netG0 0 l1Ex specEngine rfl rfl rfl rfl rfl
    (by decide)

/-- C10: when the junction has an off-ramp sink, the turn-rate vector passed
to the backend's `upstream_flow` for the queried link holds exactly the
ordinary exiting links' turn rates in adjacency order, and the off-ramp's
own turn rate enters only the sink-demand computation, appended after those
turn rates. -/
theorem C10_offramp_betas_order [Zero α] [DecidableEq α] (net : Network α)
    (node : ℕ) (link : Link α) (engine : Engine α) (dest : Destination α)
    (r v : α) (qS : SVal α) (qo : α)
    (hdest : net.destinations_by_node node = some dest)
    (hkind : dest.kind = .offRamp r)
    (hup : Node.upstream_v_q node net engine = Except.ok (v, qS, qo))
    (hmem : ∃ t ∈ net.out_links node, t.2.2 = link) :
    Node.get_upstream_speed_and_flow node net link engine =
      Except.ok (v, engine.get_upstream_flow qS link.turnrate
        (SVal.vec ((net.out_links node).map (fun t => t.2.2.turnrate)))
        (some qo)
        (some (engine.get_upstream_flow qS r
          (SVal.vec (((net.out_links node).map (fun t => t.2.2.turnrate)) ++ [r]))
          (some qo) none))) := by
  have hany : (net.out_links node).any (fun t => t.2.2 == link) = true := by
    rcases hmem with ⟨t, ht, hteq⟩
    exact List.any_eq_true.mpr ⟨t, ht, by simp [hteq]⟩
  simp [Node.get_upstream_speed_and_flow, hup, hany, hdest, hkind,
    OffRamp.get_flow, DestinationKind.has_get_flow, vcat_scl_turnrates,
    vcat_vec_scl]

/-- Witness for C10 at `netA`: the main call sees the betas vector
`[7]` and the sink-demand computation the vector `[7, 3]`. -/
theorem C10_witness :
    Node.get_upstream_speed_and_flow 0 netA l1Ex specEngine =
      Except.ok (100, specEngine.get_upstream_flow (.scl 1800) 7
        (.vec [7]) (some 0)
        (some (specEngine.get_upstream_flow (.scl 1800) 3
          (.vec [7, 3]) (some 0) none))) :=
  C10_offramp_betas_order netA 0 l1Ex specEngine dstRamp 3 100
    (.scl 1800) 0 rfl rfl rfl ⟨(0, 1, l1Ex), by decide, rfl⟩

/-- C4: under the §6 `upstream_flow` contract, an off-ramp with turn rate
`r` among exiting turn rates summing (off-ramp included) to `B` takes the
flow share `r / B` of the total inflow (upstream flow plus source flow),
every exiting link the share of its own turn rate, and the exiting flows
returned by `get_upstream_speed_and_flow` plus the off-ramp flow sum to the
total inflow. -/
theorem C4_offramp_share_and_conservation (net : Network ℚ) (node : ℕ)
    (engine : Engine ℚ) (dest : Destination ℚ) (r q vL Bo B : ℚ)
    (a b : ℕ) (lu : Link ℚ) (oo : Option (Origin ℚ)) (qo : ℚ)
    (hdest : net.destinations_by_node node = some dest)
    (hkind : dest.kind = .offRamp r)
    (hnode : net.destinations dest.id = node)
    (hin : net.in_links node = [(a, b, lu)])
    (hvL : lu.v.getLast? = some vL)
    (hq : lu.flow.getLast? = some q)
    (horig : net.origins_by_node node = oo)
    (hqo : qo = oo.elim 0 Origin.flow)
    (hBo : Bo = ((net.out_links node).map (fun t => t.2.2.turnrate)).sum)
    (hB : B = Bo + r)
    (hBo0 : Bo ≠ 0) (hB0 : B ≠ 0)
    (he : engine.get_upstream_flow = upstream_flow_spec) :
    OffRamp.get_flow dest net engine none none none =
      Except.ok (r / B * (q + qo)) ∧
    (∀ t ∈ net.out_links node,
      Node.get_upstream_speed_and_flow node net t.2.2 engine =
        Except.ok (vL, (q + qo) * t.2.2.turnrate / B)) ∧
    ((net.out_links node).map (fun t => (q + qo) * t.2.2.turnrate / B)).sum +
      r / B * (q + qo) = q + qo := by
  subst hB
  have hup : Node.upstream_v_q node net engine = Except.ok (vL, .scl q, qo) := by
    rcases oo with _ | o
    · simp only [Option.elim] at hqo
      subst hqo
      simp [Node.upstream_v_q, hin, horig, hvL, hq]
    · simp only [Option.elim] at hqo
      subst hqo
      simp [Node.upstream_v_q, hin, horig, hvL, hq]
  refine ⟨?_, ?_, ?_⟩
  · rcases oo with _ | o
    · simp only [Option.elim] at hqo
      subst hqo
      simp only [OffRamp.get_flow, hkind, ok_bind, hnode, hin,
        Destination.get_entering_link, hq, orFail_some,
        vcat_scl_turnrates_append, he, horig]
      simp [upstream_flow_spec, SVal.total, SVal.toList, ← hBo]
      field_simp
      ring
    · simp only [Option.elim] at hqo
      subst hqo
      simp only [OffRamp.get_flow, hkind, ok_bind, hnode, hin,
        Destination.get_entering_link, hq, orFail_some,
        vcat_scl_turnrates_append, he, horig]
      simp [upstream_flow_spec, SVal.total, SVal.toList, ← hBo]
      field_simp
      ring
  · intro t ht
    have hany : (net.out_links node).any (fun s => s.2.2 == t.2.2) = true :=
      List.any_eq_true.mpr ⟨t, ht, by simp⟩
    simp only [Node.get_upstream_speed_and_flow, hup, ok_bind, hany, if_true,
      hdest, hkind, OffRamp.get_flow, DestinationKind.has_get_flow,
      vcat_scl_turnrates, vcat_vec_scl, he]
    simp [upstream_flow_spec, SVal.total, SVal.toList, ← hBo]
    field_simp
    ring
  · rw [sum_map_share, ← hBo]
    field_simp
    ring

/-- Witness for C4: in `netD` (upstream flow 100, no origin, mainline turn
rate 7, off-ramp turn rate 3, so B = 10) the off-ramp takes flow 30, the
mainline exiting link flow 70, and 30 + 70 restores the total inflow 100. -/
theorem C4_witness :
    OffRamp.get_flow dstRampD netD specEngine none none none =
      Except.ok 30 ∧
    Node.get_upstream_speed_and_flow 0 netD mainD specEngine =
      Except.ok (102, 70) ∧
    (30 : ℚ) + 70 = 100 := by
  obtain ⟨h1, h2, h3⟩ := C4_offramp_share_and_conservation netD 0 specEngine
    dstRampD 3 100 102
    (((netD.out_links 0).map (fun t => t.2.2.turnrate)).sum)
    (((netD.out_links 0).map (fun t => t.2.2.turnrate)).sum + 3)
    9 0 luD none 0
    rfl rfl rfl rfl rfl rfl rfl rfl rfl rfl
    (by norm_num [netD, mainD]) (by norm_num [netD, mainD]) rfl
  refine ⟨?_, ?_, by norm_num⟩
  · rw [h1]
    norm_num [netD, mainD]
  · rw [h2 (0, 1, mainD) (by simp [netD])]
    norm_num [netD, mainD]

end SymMetanet
